import Mathlib

/-!
Verification of the hybrid client-side/cloud AI demo repository.

The definitions below are a shallow embedding of the JavaScript sources:
pure control flow becomes Lean functions, the browser environment
(window flags, the Prompt API availability probe, fetch outcomes, the
awaited result of an executor) is passed in explicitly as data, and
thrown JavaScript errors become `Except` values.
-/

namespace ClientSideAI

/-! ## Prompt API availability (client-side-ai-helpers.js, `checkPromptApiAvailability`) -/

/-- The status object returned by `checkPromptApiAvailability`:
fields mirror the JS object literals (`available`, `ready`,
`needsDownload`, `downloading`, `reason`); absent fields default to
`false` / `none` exactly as an absent JS property is falsy. -/
structure ApiStatus where
  available : Bool
  ready : Bool := false
  needsDownload : Bool := false
  downloading : Bool := false
  reason : Option String := none
  deriving Repr

/-- The browser environment consulted by `checkPromptApiAvailability`:
`window.__promptApiReady`, the existence of `window.LanguageModel`, and
the outcome of awaiting `LanguageModel.availability()` (which can throw,
hence `Except`). -/
structure PromptApiEnv where
  promptApiReady : Bool
  languageModelExists : Bool
  availabilityResult : Except String String
  deriving Repr

/-- Embedding of `checkPromptApiAvailability` (client-side-ai-helpers.js):
the early `window.__promptApiReady` return, the `window.LanguageModel`
existence check, the try/catch around `LanguageModel.availability()`,
and the switch over the availability string. -/
def checkPromptApiAvailability (env : PromptApiEnv) : ApiStatus :=
  if env.promptApiReady then
    { available := true, ready := true }
  else if !env.languageModelExists then
    { available := false, reason := some "Prompt API not supported in this browser" }
  else
    match env.availabilityResult with
    | Except.error msg =>
        { available := false, reason := some ("Error checking capabilities: " ++ msg) }
    | Except.ok a =>
        if a = "readily" then { available := true, ready := true }
        else if a = "available" then { available := true, ready := true }
        else if a = "after-download" then { available := true, needsDownload := true }
        else if a = "downloadable" then { available := true, needsDownload := true }
        else if a = "downloading" then { available := true, downloading := true }
        else if a = "no" then
          { available := false, reason := some "Model not available on this device" }
        else
          { available := false, reason := some ("Unknown status: " ++ a) }

/-! ## The fallback orchestrator (client-side-ai-helpers.js, `tryClientSideThenServerSide`) -/

/-- The outcome of awaiting `Promise.race([clientSideFunction(...args), timeoutPromise])`:
the client function resolved with a value, rejected with an error message,
or the 5-second timer won the race (`'Client-side timeout'`). -/
inductive ClientOutcome (α : Type) where
  | success (v : α)
  | failure (msg : String)
  | timedOut
  deriving Repr

/-- What one call to `tryClientSideThenServerSide` did: how many times the
client-side function and the server-side function were invoked, and the
value returned (or the error propagated) to the caller. -/
structure RunTrace (α : Type) where
  clientAttempts : Nat
  serverAttempts : Nat
  result : Except String α
  deriving Repr

/-- Embedding of `tryClientSideThenServerSide` (client-side-ai-helpers.js):
check availability, try the client-side function first whenever
`status.available` is truthy (the source comment: even if the status is
`downloading`), catch any client-side error or timeout and fall through
to the server-side function, whose result — or thrown error — goes to
the caller unhandled.  `clientOutcome` is what awaiting the client-side
race would produce; `serverOutcome` is what awaiting
`serverSideFunction(...args)` would produce. -/
def tryClientSideThenServerSide (env : PromptApiEnv)
    (clientOutcome : ClientOutcome α) (serverOutcome : Except String α) :
    RunTrace α :=
  let status := checkPromptApiAvailability env
  if status.available then
    match clientOutcome with
    | ClientOutcome.success v => ⟨1, 0, Except.ok v⟩
    | ClientOutcome.failure _ => ⟨1, 1, serverOutcome⟩
    | ClientOutcome.timedOut => ⟨1, 1, serverOutcome⟩
  else
    ⟨0, 1, serverOutcome⟩

/-! ## On-device alt-text executor (02hybrid-ai/js/alt-text-generation.js, `generateClientAltText`) -/

/-- JavaScript whitespace as far as the sources use it (ASCII). -/
def isWhitespaceChar (c : Char) : Bool :=
  c = ' ' || c = '\t' || c = '\n' || c = '\r' ||
    c = Char.ofNat 11 || c = Char.ofNat 12

/-- JavaScript `s.trim()`: strip whitespace from both ends. -/
def jsTrim (s : String) : String :=
  String.mk (((s.data.dropWhile isWhitespaceChar).reverse.dropWhile
    isWhitespaceChar).reverse)

/-- JavaScript `s.toLowerCase()` on the ASCII strings the sources feed it. -/
def jsToLower (s : String) : String :=
  String.mk (s.data.map Char.toLower)

/-- Embedding of `parsePromptApiResponse` (client-side-ai-helpers.js):
trim the response; an empty trimmed response is an error. -/
def parsePromptApiResponse (responseText : String) (context : String) :
    Except String String :=
  let cleanedText := jsTrim responseText
  if cleanedText = "" then
    Except.error ("No response text found in " ++ context ++
      " response. The API may be experiencing issues.")
  else
    Except.ok cleanedText

/-- Does the first list start with the second one? -/
def startsWithList : List Char → List Char → Bool
  | _, [] => true
  | [], _ :: _ => false
  | a :: as, b :: bs => a = b && startsWithList as bs

/-- Does the first list contain the second as a contiguous sublist? -/
def containsList : List Char → List Char → Bool
  | [], needle => needle.isEmpty
  | a :: rest, needle =>
      startsWithList (a :: rest) needle || containsList rest needle

/-- JavaScript `haystack.includes(needle)`: substring containment. -/
def includesSubstr (haystack needle : String) : Bool :=
  containsList haystack.data needle.data

/-- The single-quote character, used inside the source's
heuristic phrase for a response that did not see the image. -/
def singleQuote : Char := Char.ofNat 39

/-- The heuristic phrase checked by `generateClientAltText`. -/
def cantSeePhrase : String := "can" ++ String.mk [singleQuote] ++ "t see"

/-- The inline heuristic of `generateClientAltText`
(alt-text-generation.js lines 56-62): after lowercasing,
`(includes 'provide' && includes 'image') || includes the cannot-see
phrase || (includes 'need' && includes 'image')` — JavaScript `&&`
binds tighter than `||`. -/
def looksLikeNonAnswer (response : String) : Bool :=
  let l := jsToLower response
  (includesSubstr l "provide" && includesSubstr l "image") ||
    includesSubstr l cantSeePhrase ||
    (includesSubstr l "need" && includesSubstr l "image")

/-- The environment consumed by one call of `generateClientAltText`:
whether `createPromptApiSession()` returned a session, the facts the
no-session diagnostic consults, whether the preview image element was
found, and what awaiting `session.prompt(...)` would produce. -/
structure ClientAltEnv where
  sessionCreated : Bool
  promptApiExists : Bool
  userActivationActive : Bool
  imageElementFound : Bool
  promptResponse : Except String String
  deriving Repr

/-- Embedding of `generateClientAltText`
(02hybrid-ai/js/alt-text-generation.js): no session is an error (with a
distinct message when the API exists but user activation is missing); a
missing preview image element is an error; a response matching the
did-not-see-the-image heuristic is thrown as an error; otherwise the
response goes through `parsePromptApiResponse`.  Session destruction is
a resource effect with no bearing on the returned value. -/
def generateClientAltText (env : ClientAltEnv) : Except String String :=
  if !env.sessionCreated then
    if env.promptApiExists && !env.userActivationActive then
      Except.error "User interaction required to initialize client-side AI. Please click, tap, or press a key first."
    else
      Except.error "Failed to create Prompt API session"
  else if !env.imageElementFound then
    Except.error "Image element not found in preview"
  else
    match env.promptResponse with
    | Except.error e => Except.error e
    | Except.ok response =>
        if looksLikeNonAnswer response then
          Except.error "Prompt API did not process the image successfully"
        else
          parsePromptApiResponse response "Client-side multimodal image analysis"

/-! ## Cloud response parsing (01multimodal-ai/js/gemini-helpers.js, `parseGeminiResponse`) -/

/-- JavaScript truthiness on a possibly-absent string: absent and the
empty string are falsy. -/
def truthyStr : Option String → Option String
  | some s => if s = "" then none else some s
  | none => none

/-- One element of `candidates[0].content.parts`. -/
structure GeminiPart where
  text : Option String := none
  deriving Repr

/-- The `content` object of a candidate: the documented `parts` array
plus the historically-observed `content.text` fallback field. -/
structure GeminiContentObj where
  parts : Option (List GeminiPart) := none
  text : Option String := none
  deriving Repr

/-- One `candidates[i]` object: nested content, the `candidate.text` and
`candidate.output` fallback fields, and the finish-reason enum. -/
structure GeminiCandidate where
  content : Option GeminiContentObj := none
  text : Option String := none
  output : Option String := none
  finishReason : Option String := none
  deriving Repr

/-- A decoded Gemini response body (`data.candidates`); a missing or
empty `candidates` array is the empty list. -/
structure GeminiData where
  candidates : List GeminiCandidate := []
  deriving Repr

/-- The primary extraction: the first truthy `text` among
`candidate.content.parts` (the source loop with `break`). -/
def partsText (candidate : GeminiCandidate) : Option String :=
  match candidate.content with
  | some content =>
      match content.parts with
      | some ps => ps.findSome? (fun p => truthyStr p.text)
      | none => none
  | none => none

/-- The full extraction order of `parseGeminiResponse`: the parts array
first, then `content.text`, then `candidate.text`, then
`candidate.output`. -/
def candidateText (candidate : GeminiCandidate) : Option String :=
  match partsText candidate with
  | some t => some t
  | none =>
      match truthyStr (candidate.content.bind GeminiContentObj.text) with
      | some t => some t
      | none =>
          match truthyStr candidate.text with
          | some t => some t
          | none => truthyStr candidate.output

/-- The three distinct error kinds thrown by `parseGeminiResponse` when
no text could be extracted. -/
inductive GeminiParseError where
  | truncatedNoContent
  | finishedWithReason (r : String)
  | noText
  deriving Repr, DecidableEq

/-- The message carried by each thrown error (gemini-helpers.js). -/
def GeminiParseError.message (context : String) : GeminiParseError → String
  | GeminiParseError.truncatedNoContent =>
      context ++ " response was truncated and no readable content was found. Please try with a shorter input or increase maxOutputTokens."
  | GeminiParseError.finishedWithReason r =>
      context ++ " response finished with reason: " ++ r ++ ". Unable to process request."
  | GeminiParseError.noText =>
      "No response text found in " ++ context ++ " response. The API may be experiencing issues."

/-- Embedding of `parseGeminiResponse` (01multimodal-ai/js/gemini-helpers.js;
the copy in common/js/ui-helpers.js is identical in logic): take
`candidates[0]`, try the primary field then the fallback fields in
order, and when nothing is found throw the truncation error for a
`MAX_TOKENS` finish reason, the finish-reason error for another truthy
finish reason, and the generic no-text error otherwise. -/
def parseGeminiResponse (data : GeminiData) : Except GeminiParseError String :=
  match data.candidates.head? with
  | none => Except.error GeminiParseError.noText
  | some candidate =>
      match candidateText candidate with
      | some t => Except.ok t
      | none =>
          if candidate.finishReason = some "MAX_TOKENS" then
            Except.error GeminiParseError.truncatedNoContent
          else
            match truthyStr candidate.finishReason with
            | some r => Except.error (GeminiParseError.finishedWithReason r)
            | none => Except.error GeminiParseError.noText

/-! ## Moderation response parsing (comment-moderation.js, `analyzeComment`) -/

/-- The opening curly-bracket character. -/
def openBrace : Char := Char.ofNat 123

/-- The closing curly-bracket character. -/
def closeBrace : Char := Char.ofNat 125

/-- The verdict object the moderation prompt asks for: exactly the three
fields `isProblematic`, `reason`, `suggestion`. -/
structure ModerationVerdict where
  isProblematic : Bool
  reason : Option String := none
  suggestion : Option String := none
  deriving Repr, DecidableEq

/-- The suffix starting at the first opening brace, if any. -/
def fromFirstOpen : List Char → Option (List Char)
  | [] => none
  | c :: rest => if c = openBrace then some (c :: rest) else fromFirstOpen rest

/-- The prefix ending at the last closing brace, if any. -/
def upToLastClose (l : List Char) : Option (List Char) :=
  match l.reverse.dropWhile (fun c => c ≠ closeBrace) with
  | [] => none
  | r => some r.reverse

/-- JavaScript `responseText.match(<brace regex>)`, the greedy pattern
used by `analyzeComment`: the leftmost match starts at the first opening
brace and extends greedily to the last closing brace of the whole
string; there is no match when no closing brace follows an opening
brace.  (The leftmost viable start for this pattern is the first opening
brace overall: any closing brace after a later opening brace is also
after the first one.) -/
def jsonBlockMatch (s : String) : Option String :=
  match fromFirstOpen s.data with
  | none => none
  | some suffix =>
      match upToLastClose suffix with
      | none => none
      | some block => some (String.mk block)

/-- Embedding of the response-parsing tail of `analyzeComment`
(comment-moderation.js): extract the brace block and `JSON.parse` it
(`decode` stands for the platform's `JSON.parse` plus field reading);
with no block, the no-JSON-object error is thrown — and, like a decode
failure, re-wrapped by the enclosing catch into the invalid-format
error surfaced to the caller. -/
def extractModerationVerdict (decode : String → Except String ModerationVerdict)
    (responseText : String) : Except String ModerationVerdict :=
  match jsonBlockMatch responseText with
  | some m =>
      match decode m with
      | Except.ok v => Except.ok v
      | Except.error parseMsg =>
          Except.error ("Invalid response format from AI: " ++ parseMsg)
  | none =>
      Except.error ("Invalid response format from AI: " ++
        "Invalid response format - no JSON object found")

/-! ## Cloud executors (credential gating and the fetch boundary) -/

/-- The outcome of awaiting the `fetch` to the Gemini endpoint:
a non-ok HTTP response (with the error message the source assembles
from the error body) or an ok response with a decoded JSON body. -/
inductive FetchOutcome where
  | httpFailure (errorMsg : String)
  | okJson (data : GeminiData)
  deriving Repr

/-- What one cloud-executor call did: how many `fetch` calls it made and
what it returned or threw. -/
structure CloudCallTrace (α : Type) where
  fetchCalls : Nat
  result : Except String α
  deriving Repr

/-- JavaScript `s.startsWith(p)`. -/
def jsStartsWith (s p : String) : Bool :=
  startsWithList s.data p.data

/-- The first element of `imageData.split(',')`: everything before the
first comma (the whole string when there is none). -/
def mimeInfoOf (imageData : String) : String :=
  String.mk (imageData.data.takeWhile (fun c => c ≠ ','))

/-- The non-anchored regex search `mimeInfo.match(/data:([^;]+)/)`:
at each position, try to match the literal `data:` followed by at least
one non-semicolon character, captured greedily; advance one position on
failure. Returns the captured group. -/
def extractMimeType : List Char → Option String
  | [] => none
  | c :: rest =>
      if startsWithList (c :: rest) ("data:".data) then
        let cap := ((c :: rest).drop 5).takeWhile (fun d => d ≠ ';')
        if cap.isEmpty then extractMimeType rest else some (String.mk cap)
      else extractMimeType rest

/-- Embedding of `generateGeminiAltText`
(02hybrid-ai/js/alt-text-generation.js lines 86-150): validate the data
URL, extract the MIME type, then require a truthy stored API key —
failing fast before any `fetch` — and only then issue the single
`fetch`, whose non-ok outcome is thrown and whose body goes through
`parseGeminiResponse(·, 'Image analysis').trim()`. -/
def generateGeminiAltText (apiKey : Option String) (imageData : String)
    (fetchOutcome : FetchOutcome) : CloudCallTrace String :=
  if !(jsStartsWith imageData "data:image/") then
    ⟨0, Except.error "Valid image data URL is required"⟩
  else
    match extractMimeType (mimeInfoOf imageData).data with
    | none =>
        ⟨0, Except.error "Invalid image data format. Expected data URL with MIME type."⟩
    | some _mimeType =>
        match truthyStr apiKey with
        | none => ⟨0, Except.error "❌ Please configure your Google AI API key first"⟩
        | some _key =>
            match fetchOutcome with
            | FetchOutcome.httpFailure errorMsg => ⟨1, Except.error errorMsg⟩
            | FetchOutcome.okJson data =>
                match parseGeminiResponse data with
                | Except.error k => ⟨1, Except.error (k.message "Image analysis")⟩
                | Except.ok t => ⟨1, Except.ok (jsTrim t)⟩

/-- Embedding of `generateGeminiAltText`
(01multimodal-ai/js/serverside-alt-text-gen.js lines 21-92): same
executor with the credential check placed before MIME extraction (the
`controller instanceof AbortController` check always passes in this
embedding, where a controller is guaranteed). -/
def generateGeminiAltTextServerside (apiKey : Option String) (imageData : String)
    (fetchOutcome : FetchOutcome) : CloudCallTrace String :=
  if !(jsStartsWith imageData "data:image/") then
    ⟨0, Except.error "Valid image data URL is required"⟩
  else
    match truthyStr apiKey with
    | none => ⟨0, Except.error "❌ Please configure your Google AI API key first"⟩
    | some _key =>
        match extractMimeType (mimeInfoOf imageData).data with
        | none =>
            ⟨0, Except.error "Invalid image data format. Expected data URL with MIME type."⟩
        | some _mimeType =>
            match fetchOutcome with
            | FetchOutcome.httpFailure errorMsg => ⟨1, Except.error errorMsg⟩
            | FetchOutcome.okJson data =>
                match parseGeminiResponse data with
                | Except.error k => ⟨1, Except.error (k.message "Image analysis")⟩
                | Except.ok t => ⟨1, Except.ok (jsTrim t)⟩

/-- Embedding of the cloud path of `analyzeComment` (comment-moderation.js
lines 74-131): the `fetch` is issued unconditionally — there is no
credential check; `getApiKey()` is interpolated into the URL whether or
not a key is stored.  A non-ok response is thrown; an ok body goes
through `parseGeminiResponse(·, 'Comment analysis')` and then the brace
extraction. -/
def analyzeCommentCloud (apiKey : Option String)
    (decode : String → Except String ModerationVerdict)
    (fetchOutcome : FetchOutcome) : CloudCallTrace ModerationVerdict :=
  let _urlKey := apiKey
  match fetchOutcome with
  | FetchOutcome.httpFailure errorMsg => ⟨1, Except.error errorMsg⟩
  | FetchOutcome.okJson data =>
      match parseGeminiResponse data with
      | Except.error k => ⟨1, Except.error (k.message "Comment analysis")⟩
      | Except.ok responseText =>
          ⟨1, extractModerationVerdict decode responseText⟩

/-! ## Cancellation supersession (common/js/image-upload.js, `generateAltText`) -/

/-- Everything `updateAltTextResult` (or the loading innerHTML) can show
for one attempt: the in-progress marker, a generated alt text, the
cancelled marker (`AbortError`), or a formatted error. -/
inductive DisplayEvent where
  | analyzing
  | resultShown (altText : String)
  | cancelledShown
  | errorShown (msg : String)
  deriving Repr, DecidableEq

/-- The outcome of awaiting `aiGenerator(imageData, controller)` for one
call: resolved with a string, rejected with `AbortError`, or rejected
with another error. -/
inductive AltOutcome where
  | resolved (altText : String)
  | abortError
  | failed (msg : String)
  deriving Repr, DecidableEq

/-- The module-level state of image-upload.js that `generateAltText`
reads and writes, with `AbortController` identities made explicit:
`currentController` models `currentAnalysisController` (its id), and a
controller id joins `abortedControllers` when `.abort()` is called on
it.  `displayLog` records what was shown, in order. -/
structure UploadState where
  nextControllerId : Nat
  currentController : Option Nat
  abortedControllers : List Nat
  displayLog : List DisplayEvent
  deriving Repr, DecidableEq

/-- The synchronous prefix of `generateAltText` (image-upload.js lines
96-119), up to the `await`: abort the outstanding controller if there is
one, THEN create the fresh controller and store it, and show the
loading state.  Returns the new state and the id of this call's
controller. -/
def startGenerateAltText (s : UploadState) : UploadState × Nat :=
  let aborted :=
    match s.currentController with
    | some i => i :: s.abortedControllers
    | none => s.abortedControllers
  let id := s.nextControllerId
  (⟨id + 1, some id, aborted, s.displayLog ++ [DisplayEvent.analyzing]⟩, id)

/-- The resumption of `generateAltText` (image-upload.js lines 120-139)
when its awaited generator settles: a truthy alt text is shown; a falsy
one becomes the thrown `'No alt text generated'`, caught and shown as an
error; `AbortError` shows the cancelled marker; other errors are shown
via `handleError`; the `finally` clause clears the stored controller. -/
def finishGenerateAltText (s : UploadState) (outcome : AltOutcome) : UploadState :=
  let ev :=
    match outcome with
    | AltOutcome.resolved t =>
        if t = "" then
          DisplayEvent.errorShown "❌ Alt text generation: No alt text generated"
        else DisplayEvent.resultShown t
    | AltOutcome.abortError => DisplayEvent.cancelledShown
    | AltOutcome.failed m =>
        DisplayEvent.errorShown ("❌ Alt text generation: " ++ m)
  ⟨s.nextControllerId, none, s.abortedControllers, s.displayLog ++ [ev]⟩

/-- The alt texts actually delivered to the display, in order. -/
def shownResults (log : List DisplayEvent) : List String :=
  log.filterMap (fun e =>
    match e with
    | DisplayEvent.resultShown t => some t
    | _ => none)

/-! ## Posted-image storage (common/js/storage.js, `savePostedImage`) -/

/-- `MAX_POSTED_IMAGES` (storage.js). -/
def MAX_POSTED_IMAGES : Nat := 5

/-- What `localStorage.getItem('postedImages')` plus `JSON.parse` can
yield: nothing stored, a stored string on which `JSON.parse` throws
(caught — the list restarts empty), or a parsed list. -/
inductive StoredValue (α : Type) where
  | absent
  | corrupt
  | list (l : List α)
  deriving Repr

/-- Embedding of `savePostedImage` (common/js/storage.js lines 115-136):
load the stored list (empty when absent or unparseable), `unshift` the
new image to the front, and truncate with `slice(0, MAX_POSTED_IMAGES)`
when the length exceeds the cap.  Returns the list that is then
serialized back into storage. -/
def savePostedImage (stored : StoredValue α) (imageData : α) : List α :=
  let postedImages :=
    match stored with
    | StoredValue.absent => []
    | StoredValue.corrupt => []
    | StoredValue.list l => l
  let unshifted := imageData :: postedImages
  if MAX_POSTED_IMAGES < unshifted.length then unshifted.take MAX_POSTED_IMAGES
  else unshifted

/-! ## HTML escaping (common/js/ui-helpers.js, `escapeHtml`; comment-moderation.js, `addComment`) -/

/-- How one character of a DOM text node is serialized by `innerHTML`:
the markup-significant characters `&`, `<`, `>` become entities, all
others are kept.  `escapeHtml` (ui-helpers.js lines 154-158) assigns
`div.textContent = text` and reads back `div.innerHTML`; this function
is that round trip, per the HTML fragment-serialization algorithm. -/
def escapeHtmlChar (c : Char) : List Char :=
  if c = '&' then "&amp;".data
  else if c = '<' then "&lt;".data
  else if c = '>' then "&gt;".data
  else [c]

/-- Character-list version of the text-node serialization. -/
def escapeHtmlList : List Char → List Char
  | [] => []
  | c :: cs => escapeHtmlChar c ++ escapeHtmlList cs

/-- Embedding of `escapeHtml` (common/js/ui-helpers.js lines 154-158). -/
def escapeHtml (text : String) : String :=
  String.mk (escapeHtmlList text.data)

/-- Does every ampersand in the list start one of the three entities
`&amp;` `&lt;` `&gt;`? -/
def entitiesOnly : List Char → Bool
  | [] => true
  | c :: cs =>
      if c = '&' then
        (startsWithList cs "amp;".data && entitiesOnly (cs.drop 4)) ||
          (startsWithList cs "lt;".data && entitiesOnly (cs.drop 3)) ||
          (startsWithList cs "gt;".data && entitiesOnly (cs.drop 3))
      else entitiesOnly cs
  termination_by l => l.length
  decreasing_by all_goals (simp [List.length_drop]) <;> omega

/-- The `commentItem.innerHTML` template string built by `addComment`
(comment-moderation.js lines 454-459): the comment text goes through
`escapeHtml`, the date string is interpolated as produced by
`toLocaleDateString`. -/
def commentItemHtml (commentText : String) (dateStr : String) : String :=
  "\n    <div class=\"comment-text\">" ++ escapeHtml commentText ++
    "</div>\n    <div class=\"comment-meta\">\n      <span class=\"comment-date\">" ++
    dateStr ++ "</span>\n    </div>\n  "

/-- A concrete environment in which the availability probe reports
`downloading`: no prior verified session, `window.LanguageModel`
present, `LanguageModel.availability()` resolving to `'downloading'`. -/
def envDownloading : PromptApiEnv :=
  { promptApiReady := false
    languageModelExists := true
    availabilityResult := Except.ok "downloading" }

/-! ## Helper lemmas about the availability probe -/

/-- `ready = true` statuses are also `available = true` in every branch of
`checkPromptApiAvailability`. -/
theorem ApiStatus.ready_imp_available (env : PromptApiEnv) :
    (checkPromptApiAvailability env).ready = true →
    (checkPromptApiAvailability env).available = true := by
  unfold checkPromptApiAvailability
  split
  · intro _; rfl
  · split
    · intro h; exact absurd h (by simp)
    · split
      · intro h; exact absurd h (by simp)
      · split
        · intro _; rfl
        · split
          · intro _; rfl
          · split
            · intro h; exact absurd h (by simp)
            · split
              · intro h; exact absurd h (by simp)
              · split
                · intro h; exact absurd h (by simp)
                · split
                  · intro h; exact absurd h (by simp)
                  · intro h; exact absurd h (by simp)

/-- `downloading = true` statuses are also `available = true` in every branch of
`checkPromptApiAvailability`. -/
theorem ApiStatus.downloading_imp_available (env : PromptApiEnv) :
    (checkPromptApiAvailability env).downloading = true →
    (checkPromptApiAvailability env).available = true := by
  unfold checkPromptApiAvailability
  split
  · intro h; exact absurd h (by simp)
  · split
    · intro h; exact absurd h (by simp)
    · split
      · intro h; exact absurd h (by simp)
      · split
        · intro h; exact absurd h (by simp)
        · split
          · intro h; exact absurd h (by simp)
          · split
            · intro _; rfl
            · split
              · intro _; rfl
              · split
                · intro _; rfl
                · split
                  · intro h; exact absurd h (by simp)
                  · intro h; exact absurd h (by simp)

/-! ## Claims C1, C3, C4, C6 about the orchestrator -/

/-- C1 counterexample: with the on-device status `downloading`,
`tryClientSideThenServerSide` does NOT go directly to the cloud — it
invokes the on-device executor (here: once, successfully) and returns
its result; the cloud executor is never reached. -/
theorem c1_counterexample :
    (checkPromptApiAvailability envDownloading).downloading = true ∧
    (tryClientSideThenServerSide envDownloading
        (ClientOutcome.success "local alt text")
        (Except.ok "cloud alt text")).clientAttempts = 1 ∧
    (tryClientSideThenServerSide envDownloading
        (ClientOutcome.success "local alt text")
        (Except.ok "cloud alt text")).serverAttempts = 0 ∧
    (tryClientSideThenServerSide envDownloading
        (ClientOutcome.success "local alt text")
        (Except.ok "cloud alt text")).result = Except.ok "local alt text" := by
  refine ⟨by decide, ?_, ?_, ?_⟩ <;> rfl

/-- C1 (amended): when the on-device status is `downloading`, the
orchestrator still attempts the on-device executor first (the source
comments this choice explicitly); only if that attempt fails or times
out does it invoke the cloud executor, and an on-device success is
returned without touching the cloud. -/
theorem c1_downloading_still_tries_on_device (env : PromptApiEnv)
    (out : ClientOutcome String) (serverOutcome : Except String String)
    (h : (checkPromptApiAvailability env).downloading = true) :
    (tryClientSideThenServerSide env out serverOutcome).clientAttempts = 1 ∧
    (∀ v, out = ClientOutcome.success v →
      tryClientSideThenServerSide env out serverOutcome =
        ⟨1, 0, Except.ok v⟩) ∧
    ((∀ v, out ≠ ClientOutcome.success v) →
      tryClientSideThenServerSide env out serverOutcome =
        ⟨1, 1, serverOutcome⟩) := by
  have ha := ApiStatus.downloading_imp_available env h
  match out with
  | ClientOutcome.success v =>
      refine ⟨?_, ?_, fun hne => absurd rfl (hne v)⟩
      · simp [tryClientSideThenServerSide, ha]
      · intro w hw
        cases hw
        simp [tryClientSideThenServerSide, ha]
  | ClientOutcome.failure m =>
      refine ⟨?_, ?_, ?_⟩
      · simp [tryClientSideThenServerSide, ha]
      · intro w hw; cases hw
      · intro _; simp [tryClientSideThenServerSide, ha]
  | ClientOutcome.timedOut =>
      refine ⟨?_, ?_, ?_⟩
      · simp [tryClientSideThenServerSide, ha]
      · intro w hw; cases hw
      · intro _; simp [tryClientSideThenServerSide, ha]

/-- Witness for `c1_downloading_still_tries_on_device` at the concrete
`downloading` environment with a failing on-device attempt. -/
theorem c1_downloading_still_tries_on_device_witness :
    (tryClientSideThenServerSide envDownloading
      (ClientOutcome.failure "boom") (Except.ok "cloud")).clientAttempts = 1 ∧
    (tryClientSideThenServerSide envDownloading
      (ClientOutcome.failure "boom") (Except.ok "cloud")).serverAttempts = 1 := by
  have h := c1_downloading_still_tries_on_device envDownloading
    (ClientOutcome.failure "boom") (Except.ok "cloud") (by decide)
  refine ⟨h.1, ?_⟩
  have := h.2.2 (fun v hv => by cases hv)
  rw [this]

/-- C3: whenever the availability probe reports ready and the on-device
executor resolves successfully (within the timeout race),
`tryClientSideThenServerSide` returns the on-device result and the
cloud executor is invoked zero times. -/
theorem c3_on_device_success_is_returned (env : PromptApiEnv) (v : String)
    (serverOutcome : Except String String)
    (h : (checkPromptApiAvailability env).ready = true) :
    tryClientSideThenServerSide env (ClientOutcome.success v) serverOutcome =
      ⟨1, 0, Except.ok v⟩ := by
  have ha := ApiStatus.ready_imp_available env h
  simp [tryClientSideThenServerSide, ha]

/-- Witness for `c3_on_device_success_is_returned`: a ready environment
with a concrete on-device result. -/
theorem c3_on_device_success_is_returned_witness :
    tryClientSideThenServerSide
        { promptApiReady := false, languageModelExists := true,
          availabilityResult := Except.ok "available" }
        (ClientOutcome.success "A red bicycle leaning against a brick wall.")
        (Except.ok "cloud") =
      ⟨1, 0, Except.ok "A red bicycle leaning against a brick wall."⟩ :=
  c3_on_device_success_is_returned _ _ _ (by decide)

/-- C4: if the on-device attempt fails — the executor throws, or the
5-second timeout race is lost — the orchestrator invokes the cloud
executor exactly once and returns the cloud executor's outcome; and a
response matching the did-not-see-the-image heuristic is one of those
thrown failures: `generateClientAltText` converts it into an error. -/
theorem c4_failure_falls_back_to_cloud_once (env : PromptApiEnv)
    (out : ClientOutcome String) (serverOutcome : Except String String)
    (hav : (checkPromptApiAvailability env).available = true)
    (hfail : ∀ v, out ≠ ClientOutcome.success v) :
    (tryClientSideThenServerSide env out serverOutcome =
      ⟨1, 1, serverOutcome⟩) ∧
    (∀ cEnv : ClientAltEnv, cEnv.sessionCreated = true →
      cEnv.imageElementFound = true →
      ∀ r, cEnv.promptResponse = Except.ok r → looksLikeNonAnswer r = true →
      generateClientAltText cEnv =
        Except.error "Prompt API did not process the image successfully") := by
  constructor
  · match out with
    | ClientOutcome.success v => exact absurd rfl (hfail v)
    | ClientOutcome.failure m => simp [tryClientSideThenServerSide, hav]
    | ClientOutcome.timedOut => simp [tryClientSideThenServerSide, hav]
  · intro cEnv hs hi r hr hlooks
    simp [generateClientAltText, hs, hi, hr, hlooks]

/-- Witness for `c4_failure_falls_back_to_cloud_once`: a ready
environment, an on-device attempt whose response claims it cannot see
the image (heuristic failure), and a cloud success. -/
theorem c4_failure_falls_back_to_cloud_once_witness :
    tryClientSideThenServerSide
        { promptApiReady := true, languageModelExists := true,
          availabilityResult := Except.ok "available" }
        (ClientOutcome.failure "Prompt API did not process the image successfully")
        (Except.ok "cloud alt text") =
      ⟨1, 1, Except.ok "cloud alt text"⟩ ∧
    generateClientAltText
        { sessionCreated := true, promptApiExists := true,
          userActivationActive := true, imageElementFound := true,
          promptResponse := Except.ok "Please provide the image you want described." } =
      Except.error "Prompt API did not process the image successfully" := by
  have h := c4_failure_falls_back_to_cloud_once
    { promptApiReady := true, languageModelExists := true,
      availabilityResult := Except.ok "available" }
    (ClientOutcome.failure "Prompt API did not process the image successfully")
    (Except.ok "cloud alt text")
    (by decide) (fun v hv => by cases hv)
  exact ⟨h.1, h.2 _ rfl rfl _ rfl (by decide)⟩

/-- C6: errors on the cloud path are not recovered locally: the server
function is invoked at most once (and the client at most once — the
only retry is the single on-device-to-cloud fallback), and whenever the
cloud executor is reached its error is returned to the caller with the
underlying message intact. -/
theorem c6_cloud_error_propagates (env : PromptApiEnv)
    (out : ClientOutcome String) (e : String) :
    (tryClientSideThenServerSide env out (Except.error e)).serverAttempts ≤ 1 ∧
    (tryClientSideThenServerSide env out (Except.error e)).clientAttempts ≤ 1 ∧
    ((tryClientSideThenServerSide env out (Except.error e)).serverAttempts = 1 →
      (tryClientSideThenServerSide env out (Except.error e)).result =
        Except.error e) := by
  cases hav : (checkPromptApiAvailability env).available with
  | false => simp [tryClientSideThenServerSide, hav]
  | true =>
      match out with
      | ClientOutcome.success v => simp [tryClientSideThenServerSide, hav]
      | ClientOutcome.failure m => simp [tryClientSideThenServerSide, hav]
      | ClientOutcome.timedOut => simp [tryClientSideThenServerSide, hav]

/-- Witness for `c6_cloud_error_propagates` at a concrete unavailable
environment and a concrete cloud error. -/
theorem c6_cloud_error_propagates_witness :
    (tryClientSideThenServerSide
      { promptApiReady := false, languageModelExists := false,
        availabilityResult := Except.ok "no" }
      (ClientOutcome.failure "unused" : ClientOutcome String)
      (Except.error "API key not valid")).result =
      Except.error "API key not valid" := by
  have h := c6_cloud_error_propagates
    { promptApiReady := false, languageModelExists := false,
      availabilityResult := Except.ok "no" }
    (ClientOutcome.failure "unused" : ClientOutcome String) "API key not valid"
  exact h.2.2 (by decide)

/-! ## Claim C9: posted-image storage -/

/-- C9: after any `savePostedImage`, the stored list holds at most
`MAX_POSTED_IMAGES = 5` entries and the just-saved image is first; with
five entries already stored the oldest (last) one is dropped; a stored
string that does not parse is replaced by a fresh list rather than
crashing the save. -/
theorem c9_savePostedImage_invariants {α : Type} (stored : StoredValue α)
    (imageData : α) (l : List α) (hlen : l.length = 5) :
    (savePostedImage stored imageData).length ≤ 5 ∧
    (savePostedImage stored imageData).head? = some imageData ∧
    savePostedImage (StoredValue.list l) imageData = imageData :: l.dropLast ∧
    savePostedImage (StoredValue.corrupt : StoredValue α) imageData = [imageData] := by
  refine ⟨?_, ?_, ?_, ?_⟩
  · unfold savePostedImage MAX_POSTED_IMAGES
    cases stored <;> simp <;> split <;> simp_all [List.length_take]
  · unfold savePostedImage MAX_POSTED_IMAGES
    cases stored <;> simp <;> split <;> simp
  · unfold savePostedImage MAX_POSTED_IMAGES
    have h6 : 5 < (imageData :: l).length := by simp [hlen]
    simp only [if_pos h6]
    have : l.dropLast = l.take 4 := by
      rw [List.dropLast_eq_take, hlen]
    rw [this]
    rfl
  · rfl

/-- Witness for `c9_savePostedImage_invariants`: saving a sixth image
onto a full five-image list keeps the newest five. -/
theorem c9_savePostedImage_invariants_witness :
    savePostedImage (StoredValue.list [1, 2, 3, 4, 5]) 0 = [0, 1, 2, 3, 4] := by
  have h := c9_savePostedImage_invariants (StoredValue.list [1, 2, 3, 4, 5]) 0
    [1, 2, 3, 4, 5] (by decide)
  rw [h.2.2.1]
  rfl

/-! ## Claim C10: HTML escaping of posted comments -/

/-- A single serialized character contains no raw angle bracket. -/
theorem escapeHtmlChar_no_raw (a : Char) :
    '<' ∉ escapeHtmlChar a ∧ '>' ∉ escapeHtmlChar a := by
  unfold escapeHtmlChar
  split
  · decide
  · split
    · decide
    · split
      · decide
      · rename_i h1 h2 h3
        constructor
        · intro hmem
          simp at hmem
          exact h2 hmem.symm
        · intro hmem
          simp at hmem
          exact h3 hmem.symm

/-- Serializing one more character preserves the entities-only shape. -/
theorem entitiesOnly_escapeHtmlChar_append (a : Char) (l : List Char) :
    entitiesOnly (escapeHtmlChar a ++ l) = entitiesOnly l := by
  unfold escapeHtmlChar
  split
  · show entitiesOnly ('&' :: 'a' :: 'm' :: 'p' :: ';' :: l) = entitiesOnly l
    simp [entitiesOnly, startsWithList]
  · split
    · show entitiesOnly ('&' :: 'l' :: 't' :: ';' :: l) = entitiesOnly l
      simp [entitiesOnly, startsWithList]
    · split
      · show entitiesOnly ('&' :: 'g' :: 't' :: ';' :: l) = entitiesOnly l
        simp [entitiesOnly, startsWithList]
      · rename_i h1 h2 h3
        show entitiesOnly (a :: l) = entitiesOnly l
        rw [entitiesOnly]
        simp [h1]

/-- The serialized form of any text: no raw angle brackets, and every
ampersand starts an entity. -/
theorem escapeHtmlList_safe (l : List Char) :
    '<' ∉ escapeHtmlList l ∧ '>' ∉ escapeHtmlList l ∧
      entitiesOnly (escapeHtmlList l) = true := by
  induction l with
  | nil =>
      exact ⟨by simp [escapeHtmlList], by simp [escapeHtmlList],
        by simp [escapeHtmlList, entitiesOnly]⟩
  | cons c cs ih =>
      have hc := escapeHtmlChar_no_raw c
      refine ⟨?_, ?_, ?_⟩
      · rw [escapeHtmlList]
        simp only [List.mem_append]
        rintro (h | h)
        · exact hc.1 h
        · exact ih.1 h
      · rw [escapeHtmlList]
        simp only [List.mem_append]
        rintro (h | h)
        · exact hc.2 h
        · exact ih.2.1 h
      · rw [escapeHtmlList, entitiesOnly_escapeHtmlChar_append]
        exact ih.2.2

/-- C10: `escapeHtml` renders `<`, `>` and `&` harmless — its output
contains no raw angle bracket at all and every ampersand in it begins
one of the entities `&amp;`, `&lt;`, `&gt;` — and the comment markup
built by `addComment` routes the comment text through `escapeHtml`, so
the number of element-opening characters in the inserted HTML is that
of the fixed template (six) plus whatever the internally generated date
string contributes, independent of the comment text. -/
theorem c10_escapeHtml_blocks_markup (t d : String) :
    '<' ∉ (escapeHtml t).data ∧ '>' ∉ (escapeHtml t).data ∧
    entitiesOnly (escapeHtml t).data = true ∧
    (commentItemHtml t d).data.count '<' = 6 + d.data.count '<' := by
  have hsafe := escapeHtmlList_safe t.data
  refine ⟨hsafe.1, hsafe.2.1, hsafe.2.2, ?_⟩
  unfold commentItemHtml
  simp only [String.data_append, List.count_append]
  have hz : (escapeHtml t).data.count '<' = 0 :=
    List.count_eq_zero.mpr hsafe.1
  rw [hz]
  have h1 : ("\n    <div class=\"comment-text\">" : String).data.count '<' = 1 := by decide
  have h2 : ("</div>\n    <div class=\"comment-meta\">\n      <span class=\"comment-date\">" : String).data.count '<' = 3 := by decide
  have h3 : ("</span>\n    </div>\n  " : String).data.count '<' = 2 := by decide
  rw [h1, h2, h3]
  omega

/-- Witness for `c10_escapeHtml_blocks_markup`: an attempted script tag
in the comment adds no element-opening character to the markup. -/
theorem c10_escapeHtml_blocks_markup_witness :
    (commentItemHtml "<script>alert(1)</script> & more"
      "Oct 12, 2025, 3:00 PM").data.count '<' = 6 := by
  have h := c10_escapeHtml_blocks_markup "<script>alert(1)</script> & more"
    "Oct 12, 2025, 3:00 PM"
  rw [h.2.2.2]
  decide

/-! ## Claim C5: moderation response parsing -/

/-- Skipping a brace-free prefix, the first-open-brace suffix of the
concatenation is the part that starts with the brace. -/
theorem fromFirstOpen_append (prose json : List Char)
    (hp : openBrace ∉ prose) (hj : json.head? = some openBrace) :
    fromFirstOpen (prose ++ json) = some json := by
  induction prose with
  | nil =>
      match json, hj with
      | c :: rest, hj =>
          have hc : c = openBrace := by simpa using hj
          simp [fromFirstOpen, hc]
  | cons a as ih =>
      have ha : ¬(a = openBrace) := by
        intro h; exact hp (by simp [h])
      have has : openBrace ∉ as := fun h => hp (List.mem_cons_of_mem a h)
      simp [fromFirstOpen, ha, ih has]

/-- A brace-free list has no first-open-brace suffix. -/
theorem fromFirstOpen_eq_none (l : List Char) (h : openBrace ∉ l) :
    fromFirstOpen l = none := by
  induction l with
  | nil => rfl
  | cons a as ih =>
      have ha : ¬(a = openBrace) := fun hh => h (by simp [hh])
      simp [fromFirstOpen, ha, ih (fun hh => h (List.mem_cons_of_mem a hh))]

/-- A list ending in the closing brace is its own prefix up to the last
closing brace. -/
theorem upToLastClose_getLast (l : List Char)
    (h : l.getLast? = some closeBrace) : upToLastClose l = some l := by
  have hrev : l.reverse.head? = some closeBrace := by
    rw [List.head?_reverse]; exact h
  match hr : l.reverse, hrev with
  | c :: rest, hrev =>
      have hc : c = closeBrace := by simpa using hrev
      unfold upToLastClose
      rw [hr, hc]
      have hdrop : List.dropWhile (fun c => c ≠ closeBrace)
          (closeBrace :: rest) = closeBrace :: rest := by
        rw [List.dropWhile_cons]
        simp
      rw [hdrop]
      have : (closeBrace :: rest).reverse = l := by
        rw [← hc, ← hr, List.reverse_reverse]
      simp [this]

/-- C5: a raw moderation response that is brace-free prose followed by
one well-formed JSON object (it opens with the opening brace and closes
with the closing brace) is parsed by extracting exactly that object and
decoding it; a response containing no JSON object (no opening brace at
all) raises the no-JSON-object malformed-response error rather than
being treated as not problematic; and a brace block that fails to decode
also raises the malformed-response error. -/
theorem c5_moderation_parsing (prose json : String)
    (decode : String → Except String ModerationVerdict) (v : ModerationVerdict)
    (hp : openBrace ∉ prose.data)
    (hj1 : json.data.head? = some openBrace)
    (hj2 : json.data.getLast? = some closeBrace)
    (hd : decode json = Except.ok v) :
    (jsonBlockMatch (prose ++ json) = some json ∧
      extractModerationVerdict decode (prose ++ json) = Except.ok v) ∧
    (∀ s : String, openBrace ∉ s.data →
      extractModerationVerdict decode s =
        Except.error ("Invalid response format from AI: " ++
          "Invalid response format - no JSON object found")) ∧
    (∀ (s m : String) (parseMsg : String), jsonBlockMatch s = some m →
      decode m = Except.error parseMsg →
      extractModerationVerdict decode s =
        Except.error ("Invalid response format from AI: " ++ parseMsg)) := by
  have hmatch : jsonBlockMatch (prose ++ json) = some json := by
    unfold jsonBlockMatch
    have hdata : (prose ++ json).data = prose.data ++ json.data := by
      simp [String.data_append]
    rw [hdata, fromFirstOpen_append prose.data json.data hp hj1]
    simp [upToLastClose_getLast json.data hj2]
  refine ⟨⟨hmatch, ?_⟩, ?_, ?_⟩
  · unfold extractModerationVerdict
    rw [hmatch]
    simp [hd]
  · intro s hs
    have hnone : fromFirstOpen s.data = none := fromFirstOpen_eq_none s.data hs
    unfold extractModerationVerdict jsonBlockMatch
    rw [hnone]
  · intro s m parseMsg hm hdec
    unfold extractModerationVerdict
    rw [hm]
    simp [hdec]

/-- Witness for `c5_moderation_parsing`: prose followed by a concrete
three-field verdict object is decoded to exactly that verdict. -/
theorem c5_moderation_parsing_witness :
    extractModerationVerdict
      (fun s =>
        if s = String.mk [openBrace] ++ "\"isProblematic\": true, \"reason\": \"hostile\", \"suggestion\": \"be kinder\"" ++ String.mk [closeBrace] then
          Except.ok (⟨true, some "hostile", some "be kinder"⟩ : ModerationVerdict)
        else Except.error "unexpected token")
      ("Here is my analysis: " ++
        (String.mk [openBrace] ++ "\"isProblematic\": true, \"reason\": \"hostile\", \"suggestion\": \"be kinder\"" ++ String.mk [closeBrace])) =
      Except.ok (⟨true, some "hostile", some "be kinder"⟩ : ModerationVerdict) :=
  (c5_moderation_parsing "Here is my analysis: "
    (String.mk [openBrace] ++ "\"isProblematic\": true, \"reason\": \"hostile\", \"suggestion\": \"be kinder\"" ++ String.mk [closeBrace])
    (fun s =>
      if s = String.mk [openBrace] ++ "\"isProblematic\": true, \"reason\": \"hostile\", \"suggestion\": \"be kinder\"" ++ String.mk [closeBrace] then
        Except.ok (⟨true, some "hostile", some "be kinder"⟩ : ModerationVerdict)
      else Except.error "unexpected token")
    ⟨true, some "hostile", some "be kinder"⟩
    (by decide) (by decide) (by decide) (by simp)).1.2

/-! ## Claim C8: defensive cloud-response parsing -/

/-- C8: a `MAX_TOKENS`-truncated response still yields the recovered
text when any of the tried fields holds nonempty text, and otherwise
raises the distinct truncation error (not the generic no-text error);
and before declaring failure the parser tries the primary field
(`candidates[0].content.parts[].text`) and then the documented fallback
fields (`content.text`, `candidate.text`, `candidate.output`) in that
order. -/
theorem c8_truncation_and_field_order (c : GeminiCandidate)
    (rest : List GeminiCandidate) :
    (∀ t, c.finishReason = some "MAX_TOKENS" → candidateText c = some t →
      parseGeminiResponse ⟨c :: rest⟩ = Except.ok t) ∧
    (c.finishReason = some "MAX_TOKENS" → candidateText c = none →
      parseGeminiResponse ⟨c :: rest⟩ =
        Except.error GeminiParseError.truncatedNoContent ∧
      GeminiParseError.truncatedNoContent ≠ GeminiParseError.noText) ∧
    (∀ t, partsText c = some t →
      parseGeminiResponse ⟨c :: rest⟩ = Except.ok t) ∧
    (∀ t, partsText c = none →
      truthyStr (c.content.bind GeminiContentObj.text) = some t →
      parseGeminiResponse ⟨c :: rest⟩ = Except.ok t) ∧
    (∀ t, partsText c = none →
      truthyStr (c.content.bind GeminiContentObj.text) = none →
      truthyStr c.text = some t →
      parseGeminiResponse ⟨c :: rest⟩ = Except.ok t) ∧
    (∀ t, partsText c = none →
      truthyStr (c.content.bind GeminiContentObj.text) = none →
      truthyStr c.text = none → truthyStr c.output = some t →
      parseGeminiResponse ⟨c :: rest⟩ = Except.ok t) := by
  refine ⟨?_, ?_, ?_, ?_, ?_, ?_⟩
  · intro t _hfin hct
    simp [parseGeminiResponse, hct]
  · intro hfin hct
    refine ⟨?_, by simp⟩
    simp [parseGeminiResponse, hct, hfin]
  · intro t hp
    have hct : candidateText c = some t := by simp [candidateText, hp]
    simp [parseGeminiResponse, hct]
  · intro t hp hc
    have hct : candidateText c = some t := by simp [candidateText, hp, hc]
    simp [parseGeminiResponse, hct]
  · intro t hp hc ht
    have hct : candidateText c = some t := by simp [candidateText, hp, hc, ht]
    simp [parseGeminiResponse, hct]
  · intro t hp hc ht ho
    have hct : candidateText c = some t := by
      simp [candidateText, hp, hc, ht, ho]
    simp [parseGeminiResponse, hct]

/-- Witness for `c8_truncation_and_field_order`: a truncated response
with recoverable text yields that text; a truncated response with no
text yields the truncation error. -/
theorem c8_truncation_and_field_order_witness :
    parseGeminiResponse
        ⟨[⟨some ⟨some [⟨some "partial alt text"⟩], none⟩, none, none,
          some "MAX_TOKENS"⟩]⟩ = Except.ok "partial alt text" ∧
    parseGeminiResponse ⟨[⟨none, none, none, some "MAX_TOKENS"⟩]⟩ =
      Except.error GeminiParseError.truncatedNoContent := by
  constructor
  · exact (c8_truncation_and_field_order
      ⟨some ⟨some [⟨some "partial alt text"⟩], none⟩, none, none,
        some "MAX_TOKENS"⟩ []).1 "partial alt text" rfl rfl
  · exact ((c8_truncation_and_field_order
      ⟨none, none, none, some "MAX_TOKENS"⟩ []).2.1 rfl rfl).1

/-! ## Claim C2: cloud credential gating -/

/-- C2 counterexample: the comment-moderation cloud executor issues its
network request even when no API credential is stored — the fetch count
is 1, not 0, and no configuration error short-circuits it. -/
theorem c2_counterexample :
    (analyzeCommentCloud none (fun _ => Except.error "unused")
        (FetchOutcome.httpFailure "API key not valid")).fetchCalls = 1 ∧
    ¬((analyzeCommentCloud none (fun _ => Except.error "unused")
        (FetchOutcome.httpFailure "API key not valid")).fetchCalls = 0) := by
  exact ⟨rfl, by decide⟩

/-- C2 (amended): the two cloud alt-text executors gate on the stored
credential — called on a well-formed image data URL with no stored key,
both return the configuration error having made zero network calls —
but the comment-moderation cloud executor does not gate: it issues its
fetch unconditionally, stored key or not. -/
theorem c2_credential_gating_amended (imageData : String) (f : FetchOutcome)
    (hvalid : jsStartsWith imageData "data:image/" = true)
    (hmime : (extractMimeType (mimeInfoOf imageData).data).isSome = true) :
    (generateGeminiAltText none imageData f).fetchCalls = 0 ∧
    (generateGeminiAltText none imageData f).result =
      Except.error "❌ Please configure your Google AI API key first" ∧
    (generateGeminiAltTextServerside none imageData f).fetchCalls = 0 ∧
    (generateGeminiAltTextServerside none imageData f).result =
      Except.error "❌ Please configure your Google AI API key first" ∧
    (∀ (key : Option String) (decode : String → Except String ModerationVerdict)
        (f2 : FetchOutcome),
      (analyzeCommentCloud key decode f2).fetchCalls = 1) := by
  obtain ⟨m, hm⟩ := Option.isSome_iff_exists.mp hmime
  refine ⟨?_, ?_, ?_, ?_, ?_⟩
  · simp [generateGeminiAltText, hvalid, hm, truthyStr]
  · simp [generateGeminiAltText, hvalid, hm, truthyStr]
  · simp [generateGeminiAltTextServerside, hvalid, hm, truthyStr]
  · simp [generateGeminiAltTextServerside, hvalid, hm, truthyStr]
  · intro key decode f2
    cases f2 with
    | httpFailure msg => rfl
    | okJson data =>
        cases hpd : parseGeminiResponse data with
        | error k => simp [analyzeCommentCloud, hpd]
        | ok t => simp [analyzeCommentCloud, hpd]

/-- Witness for `c2_credential_gating_amended` at a concrete PNG data
URL with no stored key. -/
theorem c2_credential_gating_amended_witness :
    (generateGeminiAltText none "data:image/png;base64,iVBORw0KGgo"
        (FetchOutcome.httpFailure "unreached")).fetchCalls = 0 ∧
    (generateGeminiAltText none "data:image/png;base64,iVBORw0KGgo"
        (FetchOutcome.httpFailure "unreached")).result =
      Except.error "❌ Please configure your Google AI API key first" := by
  have h := c2_credential_gating_amended "data:image/png;base64,iVBORw0KGgo"
    (FetchOutcome.httpFailure "unreached") (by decide) (by decide)
  exact ⟨h.1, h.2.1⟩

/-! ## Claim C7: cancellation supersession -/

/-- C7: a call to `generateAltText` with an outstanding controller
aborts it before creating its own; in the two-rapid-calls scenario the
first call's controller is aborted (and only it), the two controllers
are distinct, and — with the executor honoring the abort signal, so the
first call settles with `AbortError` — the display receives only the
second call's alt text, in either settling order; the first call's
value is never delivered. -/
theorem c7_cancellation_supersession (s0 : UploadState)
    (h0 : s0.currentController = none) (ha0 : s0.abortedControllers = [])
    (hl0 : s0.displayLog = [])
    (i : Nat) (s : UploadState) (hs : s.currentController = some i)
    (v2 : String) (hv2 : ¬(v2 = "")) :
    (i ∈ ((startGenerateAltText s).1).abortedControllers) ∧
    ((startGenerateAltText s0).2 ∈
        ((startGenerateAltText (startGenerateAltText s0).1).1).abortedControllers ∧
      (startGenerateAltText (startGenerateAltText s0).1).2 ∉
        ((startGenerateAltText (startGenerateAltText s0).1).1).abortedControllers ∧
      (startGenerateAltText s0).2 ≠
        (startGenerateAltText (startGenerateAltText s0).1).2) ∧
    shownResults (finishGenerateAltText (finishGenerateAltText
        (startGenerateAltText (startGenerateAltText s0).1).1
        AltOutcome.abortError) (AltOutcome.resolved v2)).displayLog = [v2] ∧
    shownResults (finishGenerateAltText (finishGenerateAltText
        (startGenerateAltText (startGenerateAltText s0).1).1
        (AltOutcome.resolved v2)) AltOutcome.abortError).displayLog = [v2] := by
  refine ⟨?_, ⟨?_, ?_, ?_⟩, ?_, ?_⟩
  · simp [startGenerateAltText, hs]
  · simp [startGenerateAltText, h0]
  · simp [startGenerateAltText, h0, ha0]
  · simp [startGenerateAltText, h0]
  · simp [startGenerateAltText, finishGenerateAltText, shownResults, h0, hl0, hv2]
  · simp [startGenerateAltText, finishGenerateAltText, shownResults, h0, hl0, hv2]

/-- Witness for `c7_cancellation_supersession` on a fresh module state:
only the second call's alt text is shown. -/
theorem c7_cancellation_supersession_witness :
    shownResults (finishGenerateAltText (finishGenerateAltText
        (startGenerateAltText (startGenerateAltText ⟨0, none, [], []⟩).1).1
        AltOutcome.abortError)
        (AltOutcome.resolved "A red bicycle leaning against a wall.")).displayLog =
      ["A red bicycle leaning against a wall."] := by
  have h := c7_cancellation_supersession ⟨0, none, [], []⟩ rfl rfl rfl
    7 ⟨3, some 7, [], []⟩ rfl "A red bicycle leaning against a wall." (by decide)
  exact h.2.2.1

end ClientSideAI
